import Mathlib

/-!
Verification development for the Triones RGBW BLE controller (src/triones.py).

The embedding below translates the protocol layer of `TrionesController`:
the status-frame decoder, the outbound command-frame builders, the
connection / write / status-request state machine, and the Kelvin-to-RGB
conversion.  Python byte values are modelled as `ℕ` (inbound) or `ℤ`
(outbound command arguments, which may be negative before validation);
Python floats are modelled as exact rationals (`ℚ`) where only ratios of
small integers are involved, and as reals (`ℝ`) for the transcendental
Kelvin conversion.  A `ValueError` raised by input validation is modelled
as `Except.error`; the frames actually handed to the transport are the
`Except.ok` payload, so an error means zero bytes written.
-/

namespace Triones

/-- Source constant `HEADER_MAGIC = 0x66`. -/
def HEADER_MAGIC : ℕ := 0x66

/-- Source constant `FOOTER_MAGIC = 0x99`. -/
def FOOTER_MAGIC : ℕ := 0x99

/-- Source constant `POWER_ON = 0x23`. -/
def POWER_ON : ℕ := 0x23

/-- Source constant `POWER_OFF = 0x24`. -/
def POWER_OFF : ℕ := 0x24

/-- Decoded status record, mirroring the `TrionesStatus` dataclass. -/
structure TrionesStatus where
  is_on : Bool
  mode : ℕ
  speed : ℕ
  red : ℕ
  green : ℕ
  blue : ℕ
  white : ℕ
  raw_response : List ℕ
deriving DecidableEq

/-- Validation failures raised as `ValueError` in the source; the spec's
taxonomy splits them into range errors (numeric bounds) and format errors
(malformed hex color string). -/
inductive CmdError
  | range : CmdError
  | format : CmdError
deriving DecidableEq

/-- An outbound command frame: a list of byte values. -/
abbrev Frame := List ℤ

/-- `TrionesController._parse_status_response`.  The source first rejects
`not response or len(response) != 12` (the empty-bytes case is subsumed by
the length test), then checks the header/footer magic, then reads the
fixed offsets.  `getD i 0` is list indexing; every index used is < 12, so
the default is never hit on accepted inputs. -/
def _parse_status_response (response : List ℕ) : Option TrionesStatus :=
  if response.length ≠ 12 then none
  else if response.getD 0 0 ≠ HEADER_MAGIC ∨ response.getD 11 0 ≠ FOOTER_MAGIC then none
  else
    some { is_on := response.getD 2 0 == POWER_ON
           mode := response.getD 3 0
           speed := response.getD 5 0
           red := response.getD 6 0
           green := response.getD 7 0
           blue := response.getD 8 0
           white := response.getD 9 0
           raw_response := response }

/-- `TrionesController.set_rgb` up to the transport: validates each
component in [0,255] (else `ValueError`), then emits the single RGB frame
`[0x56, r, g, b, 0x00, 0xF0, 0xAA]`. -/
def set_rgb_frames (red green blue : ℤ) : Except CmdError (List Frame) :=
  if ¬ (0 ≤ red ∧ red ≤ 255 ∧ 0 ≤ green ∧ green ≤ 255 ∧ 0 ≤ blue ∧ blue ≤ 255) then
    .error .range
  else .ok [[0x56, red, green, blue, 0x00, 0xF0, 0xAA]]

/-- `TrionesController.set_white`: validates intensity in [0,255], then
emits `[0x56, 0, 0, 0, w, 0x0F, 0xAA]`. -/
def set_white_frames (intensity : ℤ) : Except CmdError (List Frame) :=
  if ¬ (0 ≤ intensity ∧ intensity ≤ 255) then .error .range
  else .ok [[0x56, 0x00, 0x00, 0x00, intensity, 0x0F, 0xAA]]

/-- `TrionesController.set_built_in_mode`: mode must be in 0x25..0x38 or
equal 0x41, speed in [1,255]; emits `[0xBB, mode, speed, 0x44]`. -/
def set_built_in_mode_frames (mode speed : ℤ) : Except CmdError (List Frame) :=
  if ¬ ((0x25 ≤ mode ∧ mode ≤ 0x38) ∨ mode = 0x41) then .error .range
  else if ¬ (1 ≤ speed ∧ speed ≤ 255) then .error .range
  else .ok [[0xBB, mode, speed, 0x44]]

/-- `TrionesController.set_rgbw`: validates all four components; if all
are zero emits the single all-off frame; otherwise emits an RGB frame when
any of r,g,b is positive, followed by a white frame when w is positive.
The frame list is exactly the sequence of writes the source attempts. -/
def set_rgbw_frames (red green blue white : ℤ) : Except CmdError (List Frame) :=
  if ¬ (0 ≤ red ∧ red ≤ 255 ∧ 0 ≤ green ∧ green ≤ 255 ∧
        0 ≤ blue ∧ blue ≤ 255 ∧ 0 ≤ white ∧ white ≤ 255) then .error .range
  else if red = 0 ∧ green = 0 ∧ blue = 0 ∧ white = 0 then
    .ok [[0x56, 0x00, 0x00, 0x00, 0x00, 0xF0, 0xAA]]
  else
    .ok ((if 0 < red ∨ 0 < green ∨ 0 < blue then
            [[0x56, red, green, blue, 0x00, 0xF0, 0xAA]] else []) ++
         (if 0 < white then
            [[0x56, 0x00, 0x00, 0x00, white, 0x0F, 0xAA]] else []))

/-- Python whitespace characters stripped by `int(s, 16)` (ASCII range,
by codepoint). -/
def isPySpace (c : Char) : Bool :=
  c.toNat = 32 ∨ c.toNat = 9 ∨ c.toNat = 10 ∨ c.toNat = 13 ∨ c.toNat = 11 ∨ c.toNat = 12

/-- Hexadecimal digit test, by codepoint: 0-9, a-f, A-F. -/
def isHexDigitChar (c : Char) : Bool :=
  (48 ≤ c.toNat ∧ c.toNat ≤ 57) ∨ (97 ≤ c.toNat ∧ c.toNat ≤ 102) ∨
  (65 ≤ c.toNat ∧ c.toNat ≤ 70)

/-- Value of a hexadecimal digit character. -/
def hexDigitVal (c : Char) : ℤ :=
  if 48 ≤ c.toNat ∧ c.toNat ≤ 57 then (c.toNat : ℤ) - 48
  else if 97 ≤ c.toNat ∧ c.toNat ≤ 102 then (c.toNat : ℤ) - 87
  else (c.toNat : ℤ) - 55

/-- Big-endian value of a list of hexadecimal digit characters. -/
def hexDigitsVal (cs : List Char) : ℤ :=
  cs.foldl (fun a c => 16 * a + hexDigitVal c) 0

/-- Python `int(s, 16)` restricted to the inputs reachable from
`set_color_hex` (2-character ASCII slices): leading/trailing whitespace is
stripped, an optional single sign may precede the digits, and at least one
hexadecimal digit must remain.  (Underscore separators and the `0x` prefix
need two further characters each, so they cannot occur in a valid
2-character slice; non-ASCII digits are out of scope.) -/
def pyIntBase16 (cs : List Char) : Option ℤ :=
  let t := (((cs.dropWhile isPySpace).reverse).dropWhile isPySpace).reverse
  let sgn : ℤ := if t.head? = some '-' then -1 else 1
  let ds : List Char := if t.head? = some '+' ∨ t.head? = some '-' then t.tail else t
  if ds ≠ [] ∧ ds.all isHexDigitChar then some (sgn * hexDigitsVal ds) else none

/-- `TrionesController.set_color_hex` up to the transport.  The source does
`hex_color.lstrip('#')` (strips ALL leading '#' characters), requires the
remainder to have length 6, parses the three 2-character slices with
`int(_, 16)`, and calls `set_rgb`; any `ValueError` (parse failure or an
out-of-range component such as a negative value from a '-' sign) is
re-raised as the same "invalid hex color" `ValueError`. -/
def set_color_hex_frames (s : List Char) : Except CmdError (List Frame) :=
  let t := s.dropWhile (· == '#')
  if t.length ≠ 6 then .error .format
  else
    match pyIntBase16 (t.take 2), pyIntBase16 ((t.drop 2).take 2), pyIntBase16 (t.drop 4) with
    | some r, some g, some b =>
      (match set_rgb_frames r g b with
       | .ok fs => .ok fs
       | .error _ => .error .format)
    | _, _, _ => .error .format

/-! ## Connection / write state machine

The fields `_connected : bool` and `_client : Optional[BleakClient]` of
`TrionesController` are the session state.  The transport (bleak) is an
oracle `Env`: the result of the n-th `BleakClient.connect` attempt and of
the n-th `write_gatt_char` attempt, plus the `platform.system()` check.
A failing write carries whether its message contains "not connected".
`Counts` instruments how many transport connect/write attempts happened;
it is not controller state. -/

/-- Result of one transport write attempt: success, or an exception whose
message does (`err true`) or does not (`err false`) contain the substring
"not connected". -/
inductive WriteRes
  | ok : WriteRes
  | err : Bool → WriteRes
deriving DecidableEq

/-- Whether a write attempt succeeded. -/
def WriteRes.isOk : WriteRes → Bool
  | .ok => true
  | .err _ => false

/-- Controller session state: the `_connected` flag, the `_client` handle
(abstracted to `Option Unit`), and the `auto_connect` setting. -/
structure Ctrl where
  connected : Bool
  client : Option Unit
  autoConnect : Bool
deriving DecidableEq

/-- Instrumentation: number of transport connect and write attempts made. -/
structure Counts where
  connects : ℕ
  writes : ℕ
deriving DecidableEq

/-- Transport / platform oracle. -/
structure Env where
  isWindows : Bool
  connectOk : ℕ → Bool
  writeRes : ℕ → WriteRes

/-- Freshly constructed controller: `_client = None`, `_connected = False`. -/
def initialCtrl (auto : Bool) : Ctrl := ⟨false, none, auto⟩

/-- Property `is_connected`: `self._connected and self._client is not None`. -/
def is_connected (c : Ctrl) : Bool := c.connected && c.client.isSome

/-- `TrionesController.connect`: already-connected short-circuits; otherwise
one transport connect attempt.  Success sets the client handle and the
connected flag; any exception clears both and returns failure. -/
def connect (env : Env) (c : Ctrl) (k : Counts) : Ctrl × Counts × Bool :=
  if is_connected c then (c, k, true)
  else if env.connectOk k.connects then
    ({ c with connected := true, client := some () },
     { k with connects := k.connects + 1 }, true)
  else
    ({ c with connected := false, client := none },
     { k with connects := k.connects + 1 }, false)

/-- `TrionesController._force_reconnect`: clears the flag and the handle. -/
def _force_reconnect (c : Ctrl) : Ctrl := { c with connected := false, client := none }

/-- `TrionesController.disconnect`: only acts when a client is held and the
flag is set; the `finally` block clears both regardless of transport
errors. -/
def disconnect (c : Ctrl) : Ctrl :=
  if c.client.isSome && c.connected then { c with connected := false, client := none } else c

/-- `TrionesController._ensure_connected`. -/
def _ensure_connected (env : Env) (c : Ctrl) (k : Counts) : Ctrl × Counts × Bool :=
  if ¬ is_connected c ∧ c.autoConnect then connect env c k
  else (c, k, is_connected c)

/-- `TrionesController._write_command`.  After a successful ensure-connected,
one transport write is attempted.  On failure, only when the platform is
Windows AND the message contains "not connected" does the source call
`_force_reconnect`, re-ensure the connection and retry the write exactly
once; every other failure returns `False` with the session state left as
it was. -/
def _write_command (env : Env) (c : Ctrl) (k : Counts) : Ctrl × Counts × Bool :=
  let e := _ensure_connected env c k
  if ¬ e.2.2 then (e.1, e.2.1, false)
  else
    let c1 := e.1
    let k1 := e.2.1
    match env.writeRes k1.writes with
    | .ok => (c1, { k1 with writes := k1.writes + 1 }, true)
    | .err nc =>
      let k2 := { k1 with writes := k1.writes + 1 }
      if env.isWindows && nc then
        let c2 := _force_reconnect c1
        let e2 := _ensure_connected env c2 k2
        if e2.2.2 then
          match env.writeRes e2.2.1.writes with
          | .ok => (e2.1, { e2.2.1 with writes := e2.2.1.writes + 1 }, true)
          | .err _ => (e2.1, { e2.2.1 with writes := e2.2.1.writes + 1 }, false)
        else (e2.1, e2.2.1, false)
      else (c1, k2, false)

/-- `TrionesController._get_status_response`.  `deliveries` is the sequence
of notification payloads handed to `notification_handler` while the two
notification channels are subscribed; the handler body is
`response_data = data`, i.e. each delivery overwrites the previous one
(modelled by the `foldl`).  Subscribing/unsubscribing does not touch the
session state; the status-request frame is sent through `_write_command`. -/
def _get_status_response (env : Env) (c : Ctrl) (k : Counts)
    (deliveries : List (List ℕ)) : Ctrl × Counts × Option (List ℕ) :=
  let e := _ensure_connected env c k
  if ¬ e.2.2 then (e.1, e.2.1, none)
  else
    let w := _write_command env e.1 e.2.1
    (w.1, w.2.1, deliveries.foldl (fun _ d => some d) none)

/-- `TrionesController.get_status`: parse the response when it is truthy
(non-empty), else `None`. -/
def get_status (env : Env) (c : Ctrl) (k : Counts)
    (deliveries : List (List ℕ)) : Ctrl × Counts × Option TrionesStatus :=
  let r := _get_status_response env c k deliveries
  match r.2.2 with
  | some resp => if resp ≠ [] then (r.1, r.2.1, _parse_status_response resp)
                 else (r.1, r.2.1, none)
  | none => (r.1, r.2.1, none)

/-- The session-mutating operations reachable from user code, for the
reachability invariant. -/
inductive Op
  | connectO : Op
  | disconnectO : Op
  | forceO : Op
  | writeO : Op

/-- One operation applied to a (state, instrumentation) pair. -/
def stepOp (env : Env) (p : Ctrl × Counts) (op : Op) : Ctrl × Counts :=
  match op with
  | .connectO => let r := connect env p.1 p.2; (r.1, r.2.1)
  | .disconnectO => (disconnect p.1, p.2)
  | .forceO => (_force_reconnect p.1, p.2)
  | .writeO => let r := _write_command env p.1 p.2; (r.1, r.2.1)

/-- Run a sequence of operations from a starting state. -/
def runOps (env : Env) (ops : List Op) (p : Ctrl × Counts) : Ctrl × Counts :=
  ops.foldl (stepOp env) p

/-- The invariant: the `_connected` flag implies a live client handle. -/
def clientInv (c : Ctrl) : Bool := !c.connected || c.client.isSome

/-! ## Kelvin to RGB conversion -/

/-- `TrionesController._kelvin_to_rgb` (Tanner Helland piecewise
approximation), with the float arithmetic modelled over `ℝ`.  The input is
clamped to [1000, 40000]; `temp` is the clamped value divided by 100;
each channel is computed piecewise and truncated with `int()` — every
channel value is non-negative, so truncation is `Int.floor`. -/
noncomputable def _kelvin_to_rgb (temperature : ℤ) : ℤ × ℤ × ℤ :=
  let tc : ℤ := max 1000 (min 40000 temperature)
  let temp : ℝ := (tc : ℝ) / 100
  let red : ℝ :=
    if temp ≤ 66 then 255
    else max 0 (min 255 (329.698727446 * (temp - 60) ^ (-0.1332047592 : ℝ)))
  let green : ℝ :=
    max 0 (min 255 (if temp ≤ 66 then 99.4708025861 * Real.log temp - 161.1195681661
                    else 288.1221695283 * (temp - 60) ^ (-0.0755148492 : ℝ)))
  let blue : ℝ :=
    if 66 ≤ temp then 255
    else if temp ≤ 19 then 0
    else max 0 (min 255 (138.5177312231 * Real.log (temp - 10) - 305.0447927307))
  (⌊red⌋, ⌊green⌋, ⌊blue⌋)

/-- `TrionesController.set_temperature` up to the transport.  Validation
first (so out-of-range inputs never reach `_kelvin_to_rgb` or the
transport).  The post-conversion arithmetic operates on the integer RGB
triple and the float brightness, modelled exactly over `ℚ`: the float
comparison `whiteness > 0.8` agrees with the exact comparison against 4/5
because min/max are integers ≤ 255, so the quotient can never fall inside
the rounding gap of the literal 0.8; `int()` of the non-negative products
is `Int.floor`; the 1.2 brightness boost is 6/5. -/
noncomputable def set_temperature_frames (temperature : ℤ) (brightness : ℚ)
    (use_white_leds : Bool) : Except CmdError (List Frame) :=
  if ¬ (1000 ≤ temperature ∧ temperature ≤ 40000) then .error .range
  else if ¬ (0 ≤ brightness ∧ brightness ≤ 1) then .error .range
  else
    let r := (_kelvin_to_rgb temperature).1
    let g := (_kelvin_to_rgb temperature).2.1
    let b := (_kelvin_to_rgb temperature).2.2
    if use_white_leds ∧ 4000 ≤ temperature then
      let rgbMin := min r (min g b)
      let rgbMax := max r (max g b)
      let whiteness : ℚ := if 0 < rgbMax then (rgbMin : ℚ) / (rgbMax : ℚ) else 1
      if 4 / 5 < whiteness then
        set_white_frames ⌊(255 : ℚ) * brightness⌋
      else
        set_rgb_frames ⌊(r : ℚ) * brightness⌋ ⌊(g : ℚ) * brightness⌋ ⌊(b : ℚ) * brightness⌋
    else
      let boost : ℚ := min 1 (brightness * (6 / 5))
      set_rgb_frames (min 255 ⌊(r : ℚ) * boost⌋) (min 255 ⌊(g : ℚ) * boost⌋)
        (min 255 ⌊(b : ℚ) * boost⌋)

/-! ## Concrete transport fixtures used in witnesses and counterexamples -/

/-- Non-Windows platform; connects always succeed; every write fails with a
message containing "not connected". -/
def envNoWin : Env := ⟨false, fun _ => true, fun _ => .err true⟩

/-- Windows platform; connects always succeed; the first write fails with a
"not connected" message, later writes succeed. -/
def envWinRetry : Env := ⟨true, fun _ => true, fun n => if n = 0 then .err true else .ok⟩

/-- Transport where every connect and every write succeeds. -/
def envAllOk : Env := ⟨false, fun _ => true, fun _ => .ok⟩

/-- Transport where every connect attempt fails. -/
def envConnFail : Env := ⟨false, fun _ => false, fun _ => .ok⟩

/-- A live connected session with auto-connect enabled. -/
def cConn : Ctrl := ⟨true, some (), true⟩

/-! ## Theorems -/

/-- The value of a hexadecimal digit character lies in [0, 15]. -/
theorem hexDigitVal_bounds (c : Char) (hc : isHexDigitChar c = true) :
    0 ≤ hexDigitVal c ∧ hexDigitVal c ≤ 15 := by
  simp only [isHexDigitChar, decide_eq_true_eq] at hc
  unfold hexDigitVal
  split_ifs <;> omega

/-- A hexadecimal digit character is not whitespace and not a sign. -/
theorem hexDigit_not_space_sign (c : Char) (hc : isHexDigitChar c = true) :
    isPySpace c = false ∧ c ≠ '+' ∧ c ≠ '-' := by
  simp only [isHexDigitChar, decide_eq_true_eq] at hc
  refine ⟨?_, ?_, ?_⟩
  · simp only [isPySpace, decide_eq_false_iff_not]
    omega
  · rintro rfl
    exact absurd hc (by decide)
  · rintro rfl
    exact absurd hc (by decide)

/-- On a pair of hexadecimal digit characters, the modelled Python
`int(_, 16)` returns the big-endian two-digit value. -/
theorem pyIntBase16_hex2 (a b : Char)
    (ha : isHexDigitChar a = true) (hb : isHexDigitChar b = true) :
    pyIntBase16 [a, b] = some (16 * hexDigitVal a + hexDigitVal b) := by
  obtain ⟨hsa, hpa, hma⟩ := hexDigit_not_space_sign a ha
  obtain ⟨hsb, _, _⟩ := hexDigit_not_space_sign b hb
  simp [pyIntBase16, hsa, hsb, hpa, hma, ha, hb, hexDigitsVal]

/-- C1: `_parse_status_response` returns a status exactly for 12-byte
inputs with header magic 0x66 and footer magic 0x99; in that case the
fields are read from the fixed offsets (power flag at byte 2 compared with
0x23, mode byte 3, speed byte 5, R,G,B,W bytes 6..9, raw = the input), so
a well-formed frame round-trips its R,G,B values; every other input gives
`none` with no partially parsed status. -/
theorem parse_status_response_spec (b : List ℕ) :
    ((_parse_status_response b).isSome ↔
       b.length = 12 ∧ b.getD 0 0 = 0x66 ∧ b.getD 11 0 = 0x99) ∧
    (∀ st : TrionesStatus, _parse_status_response b = some st →
       st.is_on = (b.getD 2 0 == 0x23) ∧ st.mode = b.getD 3 0 ∧ st.speed = b.getD 5 0 ∧
       st.red = b.getD 6 0 ∧ st.green = b.getD 7 0 ∧ st.blue = b.getD 8 0 ∧
       st.white = b.getD 9 0 ∧ st.raw_response = b) ∧
    (¬ (b.length = 12 ∧ b.getD 0 0 = 0x66 ∧ b.getD 11 0 = 0x99) →
       _parse_status_response b = none) ∧
    (∀ r g bl : ℕ,
       _parse_status_response [0x66, 0, 0x23, 0x41, 0, 1, r, g, bl, 0, 0, 0x99] =
         some ⟨true, 0x41, 1, r, g, bl, 0, [0x66, 0, 0x23, 0x41, 0, 1, r, g, bl, 0, 0, 0x99]⟩) := by
  unfold _parse_status_response HEADER_MAGIC FOOTER_MAGIC POWER_ON
  refine ⟨?_, ?_, ?_, ?_⟩
  · split_ifs with h1 h2
    · simp only [Option.isSome_none, Bool.false_eq_true, false_iff]
      tauto
    · simp only [Option.isSome_none, Bool.false_eq_true, false_iff]
      tauto
    · push_neg at h2
      simp only [Option.isSome_some, true_iff]
      exact ⟨by omega, h2.1, h2.2⟩
  · intro st hst
    split_ifs at hst with h1 h2
    obtain rfl := Option.some_injective _ hst.symm
    exact ⟨rfl, rfl, rfl, rfl, rfl, rfl, rfl, rfl⟩
  · intro h
    split_ifs with h1 h2
    · rfl
    · rfl
    · push_neg at h2
      exact absurd ⟨by omega, h2.1, h2.2⟩ h
  · intro r g bl
    rfl

/-- Witness for C1 at concrete frames: a well-formed frame parses and a
short frame is rejected. -/
theorem parse_status_response_spec_witness :
    (_parse_status_response [0x66, 0, 0x23, 0x41, 0, 1, 10, 20, 30, 0, 0, 0x99]).isSome ∧
    _parse_status_response [1, 2, 3] = none :=
  ⟨((parse_status_response_spec [0x66, 0, 0x23, 0x41, 0, 1, 10, 20, 30, 0, 0, 0x99]).1).mpr
     (by decide),
   (parse_status_response_spec [1, 2, 3]).2.2.1 (by decide)⟩

/-- C2: for in-range components, `set_rgbw` emits exactly one all-off
frame when all four are zero; otherwise an RGB frame exactly when some of
r,g,b is positive, followed (in that order) by a white frame exactly when
w is positive — never a combined RGBW frame. -/
theorem set_rgbw_frames_spec (r g b w : ℤ)
    (hr : 0 ≤ r ∧ r ≤ 255) (hg : 0 ≤ g ∧ g ≤ 255)
    (hb : 0 ≤ b ∧ b ≤ 255) (hw : 0 ≤ w ∧ w ≤ 255) :
    (r = 0 ∧ g = 0 ∧ b = 0 ∧ w = 0 →
       set_rgbw_frames r g b w = .ok [[0x56, 0, 0, 0, 0, 0xF0, 0xAA]]) ∧
    ((0 < r ∨ 0 < g ∨ 0 < b) ∧ w = 0 →
       set_rgbw_frames r g b w = .ok [[0x56, r, g, b, 0, 0xF0, 0xAA]]) ∧
    ((0 < r ∨ 0 < g ∨ 0 < b) ∧ 0 < w →
       set_rgbw_frames r g b w =
         .ok [[0x56, r, g, b, 0, 0xF0, 0xAA], [0x56, 0, 0, 0, w, 0x0F, 0xAA]]) ∧
    (r = 0 ∧ g = 0 ∧ b = 0 ∧ 0 < w →
       set_rgbw_frames r g b w = .ok [[0x56, 0, 0, 0, w, 0x0F, 0xAA]]) := by
  refine ⟨?_, ?_, ?_, ?_⟩ <;> intro h <;> unfold set_rgbw_frames <;>
    rw [if_neg (by omega)]
  · rw [if_pos h]
  · rw [if_neg (by omega), if_pos h.1, if_neg (by omega)]
    simp
  · rw [if_neg (by omega), if_pos h.1, if_pos h.2]
    simp
  · rw [if_neg (by omega), if_neg (by omega), if_pos h.2.2.2]
    simp

/-- Witness for C2: `set_rgbw(255,0,0,100)` emits exactly two frames, RGB
first, then white. -/
theorem set_rgbw_frames_spec_witness :
    set_rgbw_frames 255 0 0 100 =
      .ok [[0x56, 255, 0, 0, 0, 0xF0, 0xAA], [0x56, 0, 0, 0, 100, 0x0F, 0xAA]] :=
  (set_rgbw_frames_spec 255 0 0 100 (by decide) (by decide) (by decide) (by decide)).2.2.1
    (by decide)

/-- C4: every semantic command whose argument lies outside its documented
numeric bounds fails with a range `ValueError` raised by the validation
code that runs before any frame is handed to the transport, so zero bytes
are written (the error result carries no frames). -/
theorem validation_before_transmission (r g b w i m sp T : ℤ) (br : ℚ) (uw : Bool) :
    (¬ (0 ≤ r ∧ r ≤ 255 ∧ 0 ≤ g ∧ g ≤ 255 ∧ 0 ≤ b ∧ b ≤ 255) →
       set_rgb_frames r g b = .error .range) ∧
    (¬ (0 ≤ i ∧ i ≤ 255) → set_white_frames i = .error .range) ∧
    (¬ (0 ≤ r ∧ r ≤ 255 ∧ 0 ≤ g ∧ g ≤ 255 ∧ 0 ≤ b ∧ b ≤ 255 ∧ 0 ≤ w ∧ w ≤ 255) →
       set_rgbw_frames r g b w = .error .range) ∧
    (¬ ((0x25 ≤ m ∧ m ≤ 0x38) ∨ m = 0x41) ∨ ¬ (1 ≤ sp ∧ sp ≤ 255) →
       set_built_in_mode_frames m sp = .error .range) ∧
    (¬ (1000 ≤ T ∧ T ≤ 40000) ∨ ¬ (0 ≤ br ∧ br ≤ 1) →
       set_temperature_frames T br uw = .error .range) := by
  refine ⟨?_, ?_, ?_, ?_, ?_⟩ <;> intro h
  · unfold set_rgb_frames
    rw [if_pos h]
  · unfold set_white_frames
    rw [if_pos h]
  · unfold set_rgbw_frames
    rw [if_pos h]
  · unfold set_built_in_mode_frames
    rcases h with h | h
    · rw [if_pos h]
    · by_cases hm : (0x25 ≤ m ∧ m ≤ 0x38) ∨ m = 0x41
      · rw [if_neg (by tauto), if_pos h]
      · rw [if_pos hm]
  · unfold set_temperature_frames
    rcases h with h | h
    · rw [if_pos h]
    · by_cases hT : 1000 ≤ T ∧ T ≤ 40000
      · rw [if_neg (by tauto), if_pos h]
      · rw [if_pos hT]

/-- Witness for C4 at concrete out-of-range inputs for all five commands. -/
theorem validation_before_transmission_witness :
    set_rgb_frames 300 0 0 = .error .range ∧
    set_white_frames (-1) = .error .range ∧
    set_rgbw_frames 300 0 0 0 = .error .range ∧
    set_built_in_mode_frames 0 0 = .error .range ∧
    set_temperature_frames 999 2 true = .error .range := by
  have h := validation_before_transmission 300 0 0 0 (-1) 0 0 999 2 true
  exact ⟨h.1 (by decide), h.2.1 (by decide), h.2.2.1 (by decide), h.2.2.2.1 (by decide),
    h.2.2.2.2 (by norm_num)⟩

/-- Counterexample to C8 as stated: the source strips every leading '#'
(not just one) and Python `int(_, 16)` accepts a sign inside a
2-character slice, so both "##FF8000" (two '#') and "+12345" (no 6
hexadecimal digits) are accepted rather than rejected. -/
theorem set_color_hex_lenient_cx :
    set_color_hex_frames ("##FF8000".data) =
      .ok [[0x56, 255, 128, 0, 0x00, 0xF0, 0xAA]] ∧
    set_color_hex_frames ("+12345".data) =
      .ok [[0x56, 1, 35, 69, 0x00, 0xF0, 0xAA]] := by
  constructor <;> rfl

/-- C8 (amended): hex color parsing strips all leading '#' characters;
it rejects with a format `ValueError` (sending nothing) whenever the
remainder does not have exactly 6 characters, and accepts every remainder
of exactly 6 hexadecimal digits, yielding the RGB frame encoded by the
three 2-digit groups. -/
theorem set_color_hex_spec (s : List Char) :
    ((s.dropWhile (· == '#')).length ≠ 6 → set_color_hex_frames s = .error .format) ∧
    (∀ a b c d e f : Char, s.dropWhile (· == '#') = [a, b, c, d, e, f] →
       isHexDigitChar a ∧ isHexDigitChar b ∧ isHexDigitChar c ∧ isHexDigitChar d ∧
         isHexDigitChar e ∧ isHexDigitChar f →
       set_color_hex_frames s =
         .ok [[0x56, 16 * hexDigitVal a + hexDigitVal b, 16 * hexDigitVal c + hexDigitVal d,
               16 * hexDigitVal e + hexDigitVal f, 0x00, 0xF0, 0xAA]]) := by
  constructor
  · intro h
    unfold set_color_hex_frames
    rw [if_pos h]
  · intro a b c d e f ht hhex
    obtain ⟨ha, hb, hc, hd, he, hf⟩ := hhex
    have bab := hexDigitVal_bounds a ha
    have bbb := hexDigitVal_bounds b hb
    have bcb := hexDigitVal_bounds c hc
    have bdb := hexDigitVal_bounds d hd
    have beb := hexDigitVal_bounds e he
    have bfb := hexDigitVal_bounds f hf
    have hval : set_rgb_frames (16 * hexDigitVal a + hexDigitVal b)
        (16 * hexDigitVal c + hexDigitVal d) (16 * hexDigitVal e + hexDigitVal f) =
        .ok [[0x56, 16 * hexDigitVal a + hexDigitVal b, 16 * hexDigitVal c + hexDigitVal d,
              16 * hexDigitVal e + hexDigitVal f, 0x00, 0xF0, 0xAA]] := by
      unfold set_rgb_frames
      rw [if_neg (by omega)]
    unfold set_color_hex_frames
    rw [ht]
    have e1 : ([a, b, c, d, e, f] : List Char).take 2 = [a, b] := rfl
    have e2 : (([a, b, c, d, e, f] : List Char).drop 2).take 2 = [c, d] := rfl
    have e3 : ([a, b, c, d, e, f] : List Char).drop 4 = [e, f] := rfl
    simp only [if_neg (by simp : ¬ ([a, b, c, d, e, f] : List Char).length ≠ 6), e1, e2, e3,
      pyIntBase16_hex2 a b ha hb, pyIntBase16_hex2 c d hc hd, pyIntBase16_hex2 e f he hf,
      hval]

/-- Witness for C8: "#FF8000" and "ff8000" both yield the (255,128,0)
frame, "bad" is rejected with a format error. -/
theorem set_color_hex_spec_witness :
    set_color_hex_frames ("#FF8000".data) = .ok [[0x56, 255, 128, 0, 0x00, 0xF0, 0xAA]] ∧
    set_color_hex_frames ("ff8000".data) = .ok [[0x56, 255, 128, 0, 0x00, 0xF0, 0xAA]] ∧
    set_color_hex_frames ("bad".data) = .error .format := by
  refine ⟨?_, ?_, ?_⟩
  · exact ((set_color_hex_spec ("#FF8000".data)).2 'F' 'F' '8' '0' '0' '0' (by decide)
      (by decide)).trans (by rfl)
  · exact ((set_color_hex_spec ("ff8000".data)).2 'f' 'f' '8' '0' '0' '0' (by decide)
      (by decide)).trans (by rfl)
  · exact (set_color_hex_spec ("bad".data)).1 (by decide)

/-- From a connected session, `_ensure_connected` is the identity and
reports success without touching the transport. -/
theorem ensure_connected_of_connected (env : Env) (c : Ctrl) (k : Counts)
    (hc : is_connected c = true) : _ensure_connected env c k = (c, k, true) := by
  unfold _ensure_connected
  rw [if_neg (by simp [hc])]
  rw [hc]

/-- Unfolding of `_write_command` from a connected session: the initial
ensure-connected is the identity, so the behaviour is determined by the
first write result and, on a Windows "not connected" failure, by the
reconnect-and-resend path. -/
theorem write_command_unfold (env : Env) (c : Ctrl) (k : Counts)
    (hc : is_connected c = true) :
    _write_command env c k =
      (match env.writeRes k.writes with
       | .ok => (c, ⟨k.connects, k.writes + 1⟩, true)
       | .err nc =>
         if env.isWindows && nc then
           let c2 := _force_reconnect c
           let e2 := _ensure_connected env c2 ⟨k.connects, k.writes + 1⟩
           if e2.2.2 then
             match env.writeRes e2.2.1.writes with
             | .ok => (e2.1, ⟨e2.2.1.connects, e2.2.1.writes + 1⟩, true)
             | .err _ => (e2.1, ⟨e2.2.1.connects, e2.2.1.writes + 1⟩, false)
           else (e2.1, e2.2.1, false)
         else (c, ⟨k.connects, k.writes + 1⟩, false)) := by
  have he := ensure_connected_of_connected env c k hc
  unfold _write_command
  rw [he]
  rfl

/-- Counterexample to C3 as stated: on a non-Windows platform, a transport
write that fails with a message containing "not connected" leaves the
session still marked connected (the flag is not cleared), makes no
reconnect attempt and no resend (exactly one transport write happened),
and reports failure — the source only marks Disconnected and retries when
`platform.system() == "Windows"`. -/
theorem write_command_no_disconnect_cx :
    (_write_command envNoWin cConn ⟨0, 0⟩).1.connected = true ∧
    (_write_command envNoWin cConn ⟨0, 0⟩).2.1 = ⟨0, 1⟩ ∧
    (_write_command envNoWin cConn ⟨0, 0⟩).2.2 = false := by
  refine ⟨by decide, by decide, by decide⟩

/-- C3 (amended): from a connected session a single `_write_command` call
makes at most two transport write attempts.  A successful first write
reports success.  When the first write fails, the session is marked
Disconnected and exactly one reconnect-and-resend is attempted precisely
when the platform is Windows and the error message contains
"not connected": the resend's outcome is the reported result, and if the
reconnect is unavailable (auto-connect off) or fails, the call reports
failure with the session left Disconnected.  Every other write failure
reports failure after the single attempt and leaves the session state
untouched (still marked connected). -/
theorem write_command_bounded_retry (env : Env) (c : Ctrl) (k : Counts)
    (hc : is_connected c = true) :
    ((_write_command env c k).2.1.writes ≤ k.writes + 2) ∧
    (env.writeRes k.writes = .ok →
       _write_command env c k = (c, ⟨k.connects, k.writes + 1⟩, true)) ∧
    (∀ nc, env.writeRes k.writes = .err nc →
       (¬ (env.isWindows = true ∧ nc = true) →
          _write_command env c k = (c, ⟨k.connects, k.writes + 1⟩, false)) ∧
       (env.isWindows = true → nc = true →
          (c.autoConnect = true → env.connectOk k.connects = true →
             _write_command env c k =
               (⟨true, some (), c.autoConnect⟩, ⟨k.connects + 1, k.writes + 2⟩,
                (env.writeRes (k.writes + 1)).isOk)) ∧
          (c.autoConnect = true → env.connectOk k.connects = false →
             _write_command env c k =
               (⟨false, none, c.autoConnect⟩, ⟨k.connects + 1, k.writes + 1⟩, false)) ∧
          (c.autoConnect = false →
             _write_command env c k =
               (⟨false, none, c.autoConnect⟩, ⟨k.connects, k.writes + 1⟩, false)))) := by
  have hkey := write_command_unfold env c k hc
  rcases hw : env.writeRes k.writes with _ | nc <;> simp only [hw] at hkey
  · -- first write succeeds
    refine ⟨?_, fun _ => hkey, fun nc hnc => by simp [hw] at hnc⟩
    rw [hkey]
    show k.writes + 1 ≤ k.writes + 2
    omega
  · -- first write fails with message flag nc
    have hforce : _force_reconnect c = ⟨false, none, c.autoConnect⟩ := rfl
    have hno : (env.isWindows && nc) = false →
        _write_command env c k = (c, ⟨k.connects, k.writes + 1⟩, false) := by
      intro hwin
      rw [hkey, hwin]
      simp
    have hyes1 : (env.isWindows && nc) = true → c.autoConnect = true →
        env.connectOk k.connects = true →
        _write_command env c k =
          (⟨true, some (), c.autoConnect⟩, ⟨k.connects + 1, k.writes + 2⟩,
           (env.writeRes (k.writes + 1)).isOk) := by
      intro hwin hauto hco
      have he2 : _ensure_connected env ⟨false, none, c.autoConnect⟩
          ⟨k.connects, k.writes + 1⟩ =
          (⟨true, some (), c.autoConnect⟩, ⟨k.connects + 1, k.writes + 1⟩, true) := by
        unfold _ensure_connected connect is_connected
        simp [hauto, hco]
      rw [hkey, hwin]
      simp only [if_true, hforce, he2]
      rcases hw2 : env.writeRes (k.writes + 1) <;> simp [WriteRes.isOk]
    have hyes2 : (env.isWindows && nc) = true → c.autoConnect = true →
        env.connectOk k.connects = false →
        _write_command env c k =
          (⟨false, none, c.autoConnect⟩, ⟨k.connects + 1, k.writes + 1⟩, false) := by
      intro hwin hauto hco
      have he2 : _ensure_connected env ⟨false, none, c.autoConnect⟩
          ⟨k.connects, k.writes + 1⟩ =
          (⟨false, none, c.autoConnect⟩, ⟨k.connects + 1, k.writes + 1⟩, false) := by
        unfold _ensure_connected connect is_connected
        simp [hauto, hco]
      rw [hkey, hwin]
      simp [hforce, he2]
    have hyes3 : (env.isWindows && nc) = true → c.autoConnect = false →
        _write_command env c k =
          (⟨false, none, c.autoConnect⟩, ⟨k.connects, k.writes + 1⟩, false) := by
      intro hwin hauto
      have he2 : _ensure_connected env ⟨false, none, c.autoConnect⟩
          ⟨k.connects, k.writes + 1⟩ =
          (⟨false, none, c.autoConnect⟩, ⟨k.connects, k.writes + 1⟩, false) := by
        unfold _ensure_connected connect is_connected
        simp [hauto]
      rw [hkey, hwin]
      simp [hforce, he2]
    refine ⟨?_, fun hok => by simp [hw] at hok, fun nc' hnc' => ?_⟩
    · -- at most two write attempts in every branch
      rcases Bool.eq_false_or_eq_true (env.isWindows && nc) with hwin | hwin
      · rcases Bool.eq_false_or_eq_true c.autoConnect with hauto | hauto
        · rcases Bool.eq_false_or_eq_true (env.connectOk k.connects) with hco | hco
          · rw [hyes1 hwin hauto hco]
          · rw [hyes2 hwin hauto hco]
            show k.writes + 1 ≤ k.writes + 2
            omega
        · rw [hyes3 hwin hauto]
          show k.writes + 1 ≤ k.writes + 2
          omega
      · rw [hno hwin]
        show k.writes + 1 ≤ k.writes + 2
        omega
    · have heq : nc' = nc := (WriteRes.err.inj hnc').symm
      constructor
      · intro hnwin
        refine hno ?_
        rw [← heq]
        revert hnwin
        cases env.isWindows <;> cases nc' <;> simp
      · intro hwinT hncT
        have hwin : (env.isWindows && nc) = true := by
          rw [← heq]
          simp [hwinT, hncT]
        exact ⟨fun hauto hco => hyes1 hwin hauto hco,
               fun hauto hco => hyes2 hwin hauto hco,
               fun hauto => hyes3 hwin hauto⟩

/-- Witness for C3 (the spec scenario): on Windows the first write fails
with a "not connected" message, the bounded retry reconnects and resends,
the call reports success and the transport recorded exactly two write
attempts and one extra connect. -/
theorem write_command_bounded_retry_witness :
    _write_command envWinRetry cConn ⟨0, 0⟩ = (⟨true, some (), true⟩, ⟨1, 2⟩, true) := by
  have h := (write_command_bounded_retry envWinRetry cConn ⟨0, 0⟩ (by decide)).2.2 true
    (by decide)
  have h2 := (h.2 (by decide) (by decide)).1 (by decide) (by decide)
  exact h2.trans (by decide)

/-- Folding "overwrite with each delivery" over a list yields the last
delivery, or the start value when no delivery arrives. -/
theorem foldl_overwrite (ds : List (List ℕ)) :
    ∀ a : Option (List ℕ), ds.foldl (fun _ d => some d) a =
      if ds = [] then a else ds.getLast? := by
  induction ds with
  | nil => intro a; simp
  | cons x xs ih =>
    intro a
    simp only [List.foldl_cons]
    rw [ih (some x)]
    rcases xs with _ | ⟨y, ys⟩
    · simp
    · simp [List.getLast?_cons_cons]

/-- Counterexample to C5 as stated: with two frames delivered during the
wait window, `_get_status_response` returns the SECOND (last) one, not the
first — the notification handler body `response_data = data` overwrites
the previous value on every delivery. -/
theorem get_status_response_last_wins_cx :
    (_get_status_response envAllOk cConn ⟨0, 0⟩ [[1], [2]]).2.2 = some [2] ∧
    ([[1], [2]] : List (List ℕ)).head? = some [1] ∧ ¬ ([2] : List ℕ) = [1] := by
  refine ⟨by decide, by decide, by decide⟩

/-- C5 (amended): from a connected session, `_get_status_response` returns
the LAST notification frame delivered during the wait window (on whichever
notification channel it arrived), with no validation of the frame at this
layer, and returns none when no frame arrives before the deadline. -/
theorem get_status_response_returns_last (env : Env) (c : Ctrl) (k : Counts)
    (ds : List (List ℕ)) (hc : is_connected c = true) :
    (_get_status_response env c k ds).2.2 = ds.getLast? ∧
    (ds = [] → (_get_status_response env c k ds).2.2 = none) := by
  have he := ensure_connected_of_connected env c k hc
  have h1 : (_get_status_response env c k ds).2.2 = ds.foldl (fun _ d => some d) none := by
    unfold _get_status_response
    rw [he]
    rfl
  constructor
  · rw [h1, foldl_overwrite ds none]
    split_ifs with h
    · simp [h]
    · rfl
  · intro hds
    rw [h1, foldl_overwrite ds none, if_pos hds]

/-- Witness for C5: with three deliveries the last one is returned; with
no delivery the result is none. -/
theorem get_status_response_returns_last_witness :
    (_get_status_response envAllOk cConn ⟨0, 0⟩ [[5], [6], [7]]).2.2 = some [7] ∧
    (_get_status_response envAllOk cConn ⟨0, 0⟩ []).2.2 = none := by
  have h := get_status_response_returns_last envAllOk cConn ⟨0, 0⟩ [[5], [6], [7]] (by decide)
  have h2 := get_status_response_returns_last envAllOk cConn ⟨0, 0⟩ [] (by decide)
  exact ⟨h.1.trans (by decide), h2.2 rfl⟩

/-- C9: from a connected session, a status request whose request frame is
written successfully but for which no notification arrives before the
deadline makes `get_status` return none and leaves the controller fields
exactly as they were: still Connected with the same client handle, no
reconnect attempt (connect count unchanged), and the only transport write
is the status-request frame itself. -/
theorem get_status_timeout_keeps_connected (env : Env) (c : Ctrl) (k : Counts)
    (hc : is_connected c = true) (hw : env.writeRes k.writes = .ok) :
    get_status env c k [] = (c, ⟨k.connects, k.writes + 1⟩, none) := by
  have he := ensure_connected_of_connected env c k hc
  have hwc := write_command_unfold env c k hc
  simp only [hw] at hwc
  have hgr : _get_status_response env c k [] = (c, ⟨k.connects, k.writes + 1⟩, none) := by
    unfold _get_status_response
    rw [he]
    show ((_write_command env c k).1, (_write_command env c k).2.1,
      List.foldl (fun _ d => some d) (none : Option (List ℕ)) []) = _
    rw [hwc]
    rfl
  unfold get_status
  rw [hgr]

/-- Witness for C9: concrete connected session, successful status-request
write, empty delivery window — `get_status` is none, state untouched. -/
theorem get_status_timeout_keeps_connected_witness :
    get_status envAllOk cConn ⟨0, 0⟩ [] = (cConn, ⟨0, 1⟩, none) :=
  get_status_timeout_keeps_connected envAllOk cConn ⟨0, 0⟩ (by decide) (by decide)

/-- `connect` preserves the flag-implies-client invariant. -/
theorem clientInv_connect (env : Env) (c : Ctrl) (k : Counts)
    (h : clientInv c = true) : clientInv (connect env c k).1 = true := by
  unfold connect
  split_ifs with h1 h2 <;> simp_all [clientInv]

/-- `_force_reconnect` establishes the invariant unconditionally. -/
theorem clientInv_force (c : Ctrl) : clientInv (_force_reconnect c) = true := rfl

/-- `disconnect` preserves the invariant. -/
theorem clientInv_disconnect (c : Ctrl) (h : clientInv c = true) :
    clientInv (disconnect c) = true := by
  unfold disconnect
  split_ifs with h1 <;> simp_all [clientInv]

/-- `_ensure_connected` preserves the invariant. -/
theorem clientInv_ensure (env : Env) (c : Ctrl) (k : Counts)
    (h : clientInv c = true) : clientInv (_ensure_connected env c k).1 = true := by
  unfold _ensure_connected
  split_ifs with h1
  · exact clientInv_connect env c k h
  · exact h

/-- `_write_command` preserves the invariant through every branch,
including both failure paths and the reconnect-and-resend path. -/
theorem clientInv_write (env : Env) (c : Ctrl) (k : Counts)
    (h : clientInv c = true) : clientInv (_write_command env c k).1 = true := by
  have h1 := clientInv_ensure env c k h
  simp only [_write_command]
  split_ifs with hcond hretry
  · split
    · exact h1
    · split_ifs with hwin
      · split <;> exact clientInv_ensure _ _ _ (clientInv_force _)
      · exact h1
  · split
    · exact h1
    · split_ifs with hwin
      · exact clientInv_ensure _ _ _ (clientInv_force _)
      · exact h1
  · exact h1

/-- Every reachable operation preserves the invariant. -/
theorem clientInv_step (env : Env) (p : Ctrl × Counts) (op : Op)
    (h : clientInv p.1 = true) : clientInv (stepOp env p op).1 = true := by
  cases op
  · exact clientInv_connect env p.1 p.2 h
  · exact clientInv_disconnect p.1 h
  · exact clientInv_force p.1
  · exact clientInv_write env p.1 p.2 h

/-- The invariant holds after any operation sequence from an invariant
state. -/
theorem clientInv_runOps (env : Env) (ops : List Op) (p : Ctrl × Counts)
    (h : clientInv p.1 = true) : clientInv (runOps env ops p).1 = true := by
  induction ops generalizing p with
  | nil => exact h
  | cons op rest ih => exact ih (stepOp env p op) (clientInv_step env p op h)

/-- C10: in every state reachable from a freshly constructed controller by
any sequence of connect, disconnect, force-reconnect and write operations
(all failure paths included), the connected flag implies a live client
handle; consequently `is_connected` coincides with the connected flag, and
a failed `connect` always leaves the controller with the flag cleared and
no client handle. -/
theorem connected_implies_client (env : Env) (auto : Bool) (ops : List Op) :
    clientInv (runOps env ops (initialCtrl auto, ⟨0, 0⟩)).1 = true ∧
    is_connected (runOps env ops (initialCtrl auto, ⟨0, 0⟩)).1 =
      (runOps env ops (initialCtrl auto, ⟨0, 0⟩)).1.connected ∧
    (∀ c k, (connect env c k).2.2 = false →
       (connect env c k).1.connected = false ∧ (connect env c k).1.client = none) := by
  have hinv := clientInv_runOps env ops (initialCtrl auto, ⟨0, 0⟩) rfl
  refine ⟨hinv, ?_, ?_⟩
  · unfold clientInv at hinv
    unfold is_connected
    rcases Bool.eq_false_or_eq_true (runOps env ops (initialCtrl auto, ⟨0, 0⟩)).1.connected
      with hb | hb <;> simp_all
  · intro c k hf
    unfold connect at hf ⊢
    split_ifs at hf ⊢ with h1 h2
    exact ⟨rfl, rfl⟩

/-- Witness for C10: a failing write then a failing connect from a fresh
controller keep the invariant, and the failed connect leaves the state
cleared. -/
theorem connected_implies_client_witness :
    clientInv (runOps envConnFail [Op.writeO, Op.connectO] (initialCtrl true, ⟨0, 0⟩)).1
      = true ∧
    (connect envConnFail (initialCtrl true) ⟨0, 0⟩).1.connected = false ∧
    (connect envConnFail (initialCtrl true) ⟨0, 0⟩).1.client = none := by
  have h := connected_implies_client envConnFail true [Op.writeO, Op.connectO]
  have h3 := h.2.2 (initialCtrl true) ⟨0, 0⟩ (by decide)
  exact ⟨h.1, h3.1, h3.2⟩

/-- Rational lower bound on the natural logarithm of 66, via
66 = 2^6 * (33/32), the Mathlib decimal bound on log 2, and the elementary
bound log x ≥ 1 - 1/x. -/
theorem log_66_lower : (4.189 : ℝ) ≤ Real.log 66 := by
  have h2 : (0.6931471803 : ℝ) < Real.log 2 := Real.log_two_gt_d9
  have h64 : Real.log ((2 : ℝ) ^ 6) = 6 * Real.log 2 := by
    rw [Real.log_pow]
    norm_num
  have hfrac : (1 : ℝ) / 33 ≤ Real.log (33 / 32) := by
    have hup : Real.log ((32 : ℝ) / 33) ≤ 32 / 33 - 1 :=
      Real.log_le_sub_one_of_pos (by norm_num)
    have hinv : Real.log ((33 : ℝ) / 32) = - Real.log ((32 : ℝ) / 33) := by
      rw [← Real.log_inv]
      norm_num
    rw [hinv]
    linarith
  have hmul : Real.log (66 : ℝ) = Real.log ((2 : ℝ) ^ 6) + Real.log (33 / 32) := by
    rw [← Real.log_mul (by norm_num) (by norm_num)]
    norm_num
  rw [hmul, h64]
  linarith

/-- Concrete evaluation of the Kelvin conversion at 6600 K: all three
channels saturate at 255 (the green formula exceeds 255 there and is
clamped). -/
theorem kelvin_at_6600 : _kelvin_to_rgb 6600 = (255, 255, 255) := by
  simp only [_kelvin_to_rgb]
  norm_num
  have hg : (255 : ℝ) ≤ 994708025861 / 10000000000 * Real.log 66 -
      1611195681661 / 10000000000 := by
    have h := log_66_lower
    linarith
  rw [min_eq_left hg, max_eq_right (by norm_num : (0 : ℝ) ≤ 255)]
  rw [show (255 : ℝ) = ((255 : ℤ) : ℝ) by norm_num, Int.floor_intCast]

/-- A clamped-to-[0,255] value has its floor in [0,255]. -/
theorem floor_clamp_bounds (x : ℝ) :
    0 ≤ ⌊max 0 (min 255 x)⌋ ∧ ⌊max 0 (min 255 x)⌋ ≤ 255 := by
  constructor
  · exact Int.floor_nonneg.mpr (le_max_left _ _)
  · have h : max 0 (min 255 x) ≤ 255 := max_le (by norm_num) (min_le_left _ _)
    calc ⌊max 0 (min 255 x)⌋ ≤ ⌊(255 : ℝ)⌋ := Int.floor_mono h
    _ = 255 := by
      rw [show (255 : ℝ) = ((255 : ℤ) : ℝ) by norm_num, Int.floor_intCast]

/-- Every channel produced by the Kelvin conversion lies in [0,255]. -/
theorem kelvin_range (T : ℤ) :
    0 ≤ (_kelvin_to_rgb T).1 ∧ (_kelvin_to_rgb T).1 ≤ 255 ∧
    0 ≤ (_kelvin_to_rgb T).2.1 ∧ (_kelvin_to_rgb T).2.1 ≤ 255 ∧
    0 ≤ (_kelvin_to_rgb T).2.2 ∧ (_kelvin_to_rgb T).2.2 ≤ 255 := by
  have h255 : ⌊(255 : ℝ)⌋ = 255 := by
    rw [show (255 : ℝ) = ((255 : ℤ) : ℝ) by norm_num, Int.floor_intCast]
  have h0 : ⌊(0 : ℝ)⌋ = 0 := by
    rw [show (0 : ℝ) = ((0 : ℤ) : ℝ) by norm_num, Int.floor_intCast]
  refine ⟨?_, ?_, ?_, ?_, ?_, ?_⟩
  · simp only [_kelvin_to_rgb]
    split_ifs with h
    · rw [h255]
      norm_num
    · exact (floor_clamp_bounds _).1
  · simp only [_kelvin_to_rgb]
    split_ifs with h
    · rw [h255]
    · exact (floor_clamp_bounds _).2
  · simp only [_kelvin_to_rgb]
    exact (floor_clamp_bounds _).1
  · simp only [_kelvin_to_rgb]
    exact (floor_clamp_bounds _).2
  · simp only [_kelvin_to_rgb]
    split_ifs with h1 h2
    · rw [h255]
      norm_num
    · rw [h0]
    · exact (floor_clamp_bounds _).1
  · simp only [_kelvin_to_rgb]
    split_ifs with h1 h2
    · rw [h255]
    · rw [h0]
      norm_num
    · exact (floor_clamp_bounds _).2

/-- C7: `_kelvin_to_rgb` first clamps its input to [1000, 40000]; with
t = clamped/100, the red channel is 255 whenever t ≤ 66, the blue channel
is 255 whenever t ≥ 66 and 0 whenever t ≤ 19; hence 1000 K gives red 255
and blue 0, and any input below 1000 or above 40000 yields the same
result as 1000 or 40000 respectively. -/
theorem kelvin_to_rgb_piecewise (T : ℤ) :
    (max 1000 (min 40000 T) ≤ 6600 → (_kelvin_to_rgb T).1 = 255) ∧
    (6600 ≤ max 1000 (min 40000 T) → (_kelvin_to_rgb T).2.2 = 255) ∧
    (max 1000 (min 40000 T) ≤ 1900 → (_kelvin_to_rgb T).2.2 = 0) ∧
    ((_kelvin_to_rgb 1000).1 = 255 ∧ (_kelvin_to_rgb 1000).2.2 = 0) ∧
    (T ≤ 1000 → _kelvin_to_rgb T = _kelvin_to_rgb 1000) ∧
    (40000 ≤ T → _kelvin_to_rgb T = _kelvin_to_rgb 40000) := by
  have h255 : ⌊(255 : ℝ)⌋ = 255 := by
    rw [show (255 : ℝ) = ((255 : ℤ) : ℝ) by norm_num, Int.floor_intCast]
  have h0 : ⌊(0 : ℝ)⌋ = 0 := by
    rw [show (0 : ℝ) = ((0 : ℤ) : ℝ) by norm_num, Int.floor_intCast]
  refine ⟨?_, ?_, ?_, ?_, ?_, ?_⟩
  · intro h
    have hcond : ((max 1000 (min 40000 T) : ℤ) : ℝ) / 100 ≤ 66 := by
      rw [div_le_iff₀ (by norm_num : (0 : ℝ) < 100)]
      have hle : ((max 1000 (min 40000 T) : ℤ) : ℝ) ≤ 6600 := by exact_mod_cast h
      linarith
    simp only [_kelvin_to_rgb, if_pos hcond]
    exact h255
  · intro h
    have hcond : (66 : ℝ) ≤ ((max 1000 (min 40000 T) : ℤ) : ℝ) / 100 := by
      rw [le_div_iff₀ (by norm_num : (0 : ℝ) < 100)]
      have hle : (6600 : ℝ) ≤ ((max 1000 (min 40000 T) : ℤ) : ℝ) := by exact_mod_cast h
      linarith
    simp only [_kelvin_to_rgb, if_pos hcond]
    exact h255
  · intro h
    have hcond : ((max 1000 (min 40000 T) : ℤ) : ℝ) / 100 ≤ 19 := by
      rw [div_le_iff₀ (by norm_num : (0 : ℝ) < 100)]
      have hle : ((max 1000 (min 40000 T) : ℤ) : ℝ) ≤ 1900 := by exact_mod_cast h
      linarith
    have hcond2 : ¬ ((66 : ℝ) ≤ ((max 1000 (min 40000 T) : ℤ) : ℝ) / 100) := by
      intro hx
      linarith
    simp only [_kelvin_to_rgb, if_neg hcond2, if_pos hcond]
    exact h0
  · constructor
    · have hcond : ((max 1000 (min 40000 (1000 : ℤ)) : ℤ) : ℝ) / 100 ≤ 66 := by norm_num
      simp only [_kelvin_to_rgb, if_pos hcond]
      exact h255
    · have hcond : ((max 1000 (min 40000 (1000 : ℤ)) : ℤ) : ℝ) / 100 ≤ 19 := by norm_num
      have hcond2 : ¬ ((66 : ℝ) ≤ ((max 1000 (min 40000 (1000 : ℤ)) : ℤ) : ℝ) / 100) := by
        norm_num
      simp only [_kelvin_to_rgb, if_neg hcond2, if_pos hcond]
      exact h0
  · intro h
    have hclamp : max 1000 (min 40000 T) = max 1000 (min 40000 (1000 : ℤ)) := by omega
    unfold _kelvin_to_rgb
    rw [hclamp]
  · intro h
    have hclamp : max 1000 (min 40000 T) = max 1000 (min 40000 (40000 : ℤ)) := by omega
    unfold _kelvin_to_rgb
    rw [hclamp]

/-- Witness for C7 at 500 K (clamped to 1000 K): red 255, blue 0, and the
result coincides with 1000 K. -/
theorem kelvin_to_rgb_piecewise_witness :
    (_kelvin_to_rgb 500).1 = 255 ∧ (_kelvin_to_rgb 500).2.2 = 0 ∧
    _kelvin_to_rgb 500 = _kelvin_to_rgb 1000 := by
  have h := kelvin_to_rgb_piecewise 500
  exact ⟨h.1 (by decide), h.2.2.1 (by decide), h.2.2.2.2.1 (by decide)⟩

/-- Scaling a [0,255] integer by a [0,1] rational and truncating stays in
[0,255]. -/
theorem floor_scale_bounds (v : ℤ) (br : ℚ) (hv : 0 ≤ v ∧ v ≤ 255)
    (hbr : 0 ≤ br ∧ br ≤ 1) : 0 ≤ ⌊(v : ℚ) * br⌋ ∧ ⌊(v : ℚ) * br⌋ ≤ 255 := by
  constructor
  · exact Int.floor_nonneg.mpr (mul_nonneg (by exact_mod_cast hv.1) hbr.1)
  · have h : (v : ℚ) * br ≤ 255 := by
      have h1 : (v : ℚ) * br ≤ (v : ℚ) * 1 :=
        mul_le_mul_of_nonneg_left hbr.2 (by exact_mod_cast hv.1)
      have h2 : (v : ℚ) ≤ 255 := by exact_mod_cast hv.2
      linarith
    calc ⌊(v : ℚ) * br⌋ ≤ ⌊(255 : ℚ)⌋ := Int.floor_mono h
    _ = 255 := by
      rw [show (255 : ℚ) = ((255 : ℤ) : ℚ) by norm_num, Int.floor_intCast]

/-- C6 (amended): for a valid temperature of at least 4000 K with white
LEDs enabled, when the whiteness ratio min/max of the Kelvin-derived RGB
exceeds 0.8 (taken as 1 when the max is 0), `set_temperature` emits one
white frame whose intensity is int(255*brightness) — TRUNCATED, not
rounded; when the ratio is at most 0.8 it emits one RGB frame with each
channel scaled by the brightness and truncated. -/
theorem set_temperature_white_branch (T : ℤ) (br : ℚ)
    (hT : 1000 ≤ T ∧ T ≤ 40000) (hbr : 0 ≤ br ∧ br ≤ 1) (hT4 : 4000 ≤ T) :
    ((max (_kelvin_to_rgb T).1 (max (_kelvin_to_rgb T).2.1 (_kelvin_to_rgb T).2.2) = 0 ∨
        4 * max (_kelvin_to_rgb T).1 (max (_kelvin_to_rgb T).2.1 (_kelvin_to_rgb T).2.2) <
          5 * min (_kelvin_to_rgb T).1 (min (_kelvin_to_rgb T).2.1 (_kelvin_to_rgb T).2.2)) →
      set_temperature_frames T br true =
        .ok [[0x56, 0, 0, 0, ⌊(255 : ℚ) * br⌋, 0x0F, 0xAA]]) ∧
    ((0 < max (_kelvin_to_rgb T).1 (max (_kelvin_to_rgb T).2.1 (_kelvin_to_rgb T).2.2) ∧
        5 * min (_kelvin_to_rgb T).1 (min (_kelvin_to_rgb T).2.1 (_kelvin_to_rgb T).2.2) ≤
          4 * max (_kelvin_to_rgb T).1 (max (_kelvin_to_rgb T).2.1 (_kelvin_to_rgb T).2.2)) →
      set_temperature_frames T br true =
        .ok [[0x56, ⌊((_kelvin_to_rgb T).1 : ℚ) * br⌋, ⌊((_kelvin_to_rgb T).2.1 : ℚ) * br⌋,
              ⌊((_kelvin_to_rgb T).2.2 : ℚ) * br⌋, 0x00, 0xF0, 0xAA]]) := by
  obtain ⟨hr0, hr1, hg0, hg1, hb0, hb1⟩ := kelvin_range T
  have hbase : set_temperature_frames T br true =
      (if 4 / 5 <
          (if 0 < max (_kelvin_to_rgb T).1 (max (_kelvin_to_rgb T).2.1 (_kelvin_to_rgb T).2.2)
           then (((min (_kelvin_to_rgb T).1 (min (_kelvin_to_rgb T).2.1 (_kelvin_to_rgb T).2.2) :
              ℤ) : ℚ) /
             ((max (_kelvin_to_rgb T).1 (max (_kelvin_to_rgb T).2.1 (_kelvin_to_rgb T).2.2) :
              ℤ) : ℚ))
           else 1)
       then set_white_frames ⌊(255 : ℚ) * br⌋
       else set_rgb_frames ⌊((_kelvin_to_rgb T).1 : ℚ) * br⌋
         ⌊((_kelvin_to_rgb T).2.1 : ℚ) * br⌋ ⌊((_kelvin_to_rgb T).2.2 : ℚ) * br⌋) := by
    simp only [set_temperature_frames]
    rw [if_neg (not_not_intro hT), if_neg (not_not_intro hbr),
      if_pos (⟨trivial, hT4⟩ : True ∧ 4000 ≤ T)]
  have hmn0 : 0 ≤ min (_kelvin_to_rgb T).1 (min (_kelvin_to_rgb T).2.1 (_kelvin_to_rgb T).2.2) :=
    le_min hr0 (le_min hg0 hb0)
  have hmnmx : min (_kelvin_to_rgb T).1 (min (_kelvin_to_rgb T).2.1 (_kelvin_to_rgb T).2.2) ≤
      max (_kelvin_to_rgb T).1 (max (_kelvin_to_rgb T).2.1 (_kelvin_to_rgb T).2.2) :=
    le_trans (min_le_left _ _) (le_max_left _ _)
  constructor
  · intro h
    have hwhite : (4 : ℚ) / 5 <
        (if 0 < max (_kelvin_to_rgb T).1 (max (_kelvin_to_rgb T).2.1 (_kelvin_to_rgb T).2.2)
         then (((min (_kelvin_to_rgb T).1 (min (_kelvin_to_rgb T).2.1 (_kelvin_to_rgb T).2.2) :
            ℤ) : ℚ) /
           ((max (_kelvin_to_rgb T).1 (max (_kelvin_to_rgb T).2.1 (_kelvin_to_rgb T).2.2) :
            ℤ) : ℚ))
         else 1) := by
      rcases h with hmx0 | hlt
      · rw [hmx0]
        rw [if_neg (lt_irrefl 0)]
        norm_num
      · have hmx : 0 < max (_kelvin_to_rgb T).1 (max (_kelvin_to_rgb T).2.1 (_kelvin_to_rgb T).2.2) := by
          omega
        rw [if_pos hmx]
        rw [div_lt_div_iff₀ (by norm_num) (by exact_mod_cast hmx)]
        push_cast
        have : (4 : ℚ) * (max (_kelvin_to_rgb T).1 (max (_kelvin_to_rgb T).2.1 (_kelvin_to_rgb T).2.2) : ℚ) <
            5 * (min (_kelvin_to_rgb T).1 (min (_kelvin_to_rgb T).2.1 (_kelvin_to_rgb T).2.2) : ℚ) := by
          exact_mod_cast hlt
        linarith
    rw [hbase, if_pos hwhite]
    have hw0 : 0 ≤ ⌊(255 : ℚ) * br⌋ :=
      Int.floor_nonneg.mpr (mul_nonneg (by norm_num) hbr.1)
    have hw1 : ⌊(255 : ℚ) * br⌋ ≤ 255 := by
      have h1 : (255 : ℚ) * br ≤ 255 := by nlinarith [hbr.1, hbr.2]
      calc ⌊(255 : ℚ) * br⌋ ≤ ⌊(255 : ℚ)⌋ := Int.floor_mono h1
      _ = 255 := by
        rw [show (255 : ℚ) = ((255 : ℤ) : ℚ) by norm_num, Int.floor_intCast]
    unfold set_white_frames
    rw [if_neg (by omega)]
  · intro h
    obtain ⟨hmx, hle⟩ := h
    have hnot : ¬ ((4 : ℚ) / 5 <
        (if 0 < max (_kelvin_to_rgb T).1 (max (_kelvin_to_rgb T).2.1 (_kelvin_to_rgb T).2.2)
         then (((min (_kelvin_to_rgb T).1 (min (_kelvin_to_rgb T).2.1 (_kelvin_to_rgb T).2.2) :
            ℤ) : ℚ) /
           ((max (_kelvin_to_rgb T).1 (max (_kelvin_to_rgb T).2.1 (_kelvin_to_rgb T).2.2) :
            ℤ) : ℚ))
         else 1)) := by
      rw [if_pos hmx]
      rw [not_lt, div_le_div_iff₀ (by exact_mod_cast hmx) (by norm_num)]
      push_cast
      have : (5 : ℚ) * (min (_kelvin_to_rgb T).1 (min (_kelvin_to_rgb T).2.1 (_kelvin_to_rgb T).2.2) : ℚ) ≤
          4 * (max (_kelvin_to_rgb T).1 (max (_kelvin_to_rgb T).2.1 (_kelvin_to_rgb T).2.2) : ℚ) := by
        exact_mod_cast hle
      linarith
    rw [hbase, if_neg hnot]
    obtain ⟨hsr0, hsr1⟩ := floor_scale_bounds (_kelvin_to_rgb T).1 br ⟨hr0, hr1⟩ hbr
    obtain ⟨hsg0, hsg1⟩ := floor_scale_bounds (_kelvin_to_rgb T).2.1 br ⟨hg0, hg1⟩ hbr
    obtain ⟨hsb0, hsb1⟩ := floor_scale_bounds (_kelvin_to_rgb T).2.2 br ⟨hb0, hb1⟩ hbr
    unfold set_rgb_frames
    rw [if_neg (by omega)]

/-- Counterexample to C6 as stated: at 6600 K (whiteness ratio 1) with
brightness 1/2 the emitted white intensity is int(255*0.5) = 127, while
round(255*0.5) = 128 — the source truncates rather than rounds. -/
theorem set_temperature_truncates_cx :
    set_temperature_frames 6600 (1 / 2) true = .ok [[0x56, 0, 0, 0, 127, 0x0F, 0xAA]] ∧
    (127 : ℤ) ≠ round ((255 : ℚ) * (1 / 2)) := by
  constructor
  · have h : set_temperature_frames 6600 (1 / 2) true =
        set_white_frames ⌊(255 : ℚ) * (1 / 2)⌋ := by
      unfold set_temperature_frames
      rw [kelvin_at_6600]
      norm_num
    rw [h, show ⌊(255 : ℚ) * (1 / 2)⌋ = 127 from by norm_num]
    rfl
  · rw [round_eq]
    norm_num

/-- Witness for C6 at 6600 K with brightness 1: a single white frame of
intensity 255. -/
theorem set_temperature_white_branch_witness :
    set_temperature_frames 6600 1 true = .ok [[0x56, 0, 0, 0, 255, 0x0F, 0xAA]] := by
  have h := (set_temperature_white_branch 6600 1 (by norm_num) (by norm_num) (by norm_num)).1
  have h2 := h (by rw [kelvin_at_6600]; decide)
  rw [h2, show ⌊(255 : ℚ) * 1⌋ = 255 from by norm_num]


end Triones
